import Mathlib

/-!
Verification of the tiered ingestion pipeline (`src/ingestion.py`, with the
variant `src/data_ingestion/ingestion.py` agreeing on every modelled point).

The embedding is shallow: the module-level mutable globals (`db_conn`,
`batch_buffer`, `last_commit_time`, `last_gold_refresh`, the raw files on
disk, and the row-store contents reachable through the connection) become an
explicit `State` record threaded through each translated function.  Wall-clock
reads (`time.time()` / `datetime.now()` / SQL `NOW()`) are modelled by an
explicit `now : Nat` parameter (seconds).  External failures that the Python
code only observes as exceptions (a failing `COMMIT`, a failing refresh
statement) are modelled by explicit Boolean oracle parameters (`commitOk`,
`dbOk`): `true` means the corresponding database call succeeds.
-/

namespace Ingestion

/-- A decoded inbound payload: a JSON object whose three relevant keys may
each be absent (Python raises `KeyError` on access of a missing key).
`value` is modelled as `Int` (the generator publishes integers and the status
line formats it with `:3d`). -/
structure Data where
  id? : Option String
  dt? : Option String
  value? : Option Int
deriving DecidableEq, Repr

/-- The raw MQTT payload: either `json.loads` fails (malformed) or yields a
`Data` object. -/
inductive Payload where
  | malformed : Payload
  | parsed : Data → Payload
deriving DecidableEq, Repr

/-- One row of `silver.sensor_reading (time, sensor_id, value)`; `time` is the
timestamp as parsed by the store, in model seconds. -/
structure Row where
  time : Nat
  sensorId : String
  value : Int
deriving DecidableEq, Repr

/-- One row of `gold.reading_1min_mean`. -/
structure GoldRow where
  bucket : Nat
  sensorId : String
  valMean : ℚ
  valMin : Int
  valMax : Int
  sampleCount : Nat
  dataQuality : String
  lastUpdated : Nat
deriving DecidableEq, Repr

/-- The process-wide mutable state of `ingestion.py`:
raw `.jsonl` files on disk (filename to lines), whether `db_conn` is a live
connection, the committed rows of `silver.sensor_reading`, the uncommitted
inserts of the open transaction, the (committed) contents of
`gold.reading_1min_mean`, and the globals `batch_buffer`, `last_commit_time`,
`last_gold_refresh`. -/
structure State where
  rawFiles : List (String × List Data)
  dbConnected : Bool
  committedSilver : List Row
  pendingTxn : List Row
  gold : List GoldRow
  batchBuffer : List Data
  lastCommitTime : Nat
  lastGoldRefresh : Nat
deriving DecidableEq, Repr

/-- Everything `on_message` did for one inbound message, as observed by the
logging / control flow: the two tier results, whether the status line printed
without raising, whether `flush_batch` and `refresh_gold_layer` were invoked,
the refresh result, and whether the outer `except` handler fired. -/
structure MsgOutcome where
  rawOk : Bool
  silverOk : Bool
  printed : Bool
  flushAttempted : Bool
  refreshAttempted : Bool
  refreshOk : Bool
  caught : Bool
deriving DecidableEq, Repr

/-! ### Model of `datetime.fromisoformat` (external stdlib)

The pipeline only needs: parsing is a deterministic partial function, the
date part of a parsed timestamp gives the raw-file partition key, and parsed
instants carry second precision for `time_bucket` arithmetic.  The model
accepts `YYYY-MM-DD` optionally followed by `T` or a space and `HH:MM:SS`
(a conservative subset of what CPython accepts), and encodes the instant as
a single monotone `Nat` of seconds. -/

def digitVal (c : Char) : Option Nat :=
  if c.isDigit then some (c.toNat - 48) else none

def parse2 (a b : Char) : Option Nat := do
  let x ← digitVal a
  let y ← digitVal b
  pure (x * 10 + y)

def parse4 (a b c d : Char) : Option Nat := do
  let x ← parse2 a b
  let y ← parse2 c d
  pure (x * 100 + y)

def parseDatePart : List Char → Option (Nat × Nat × Nat × List Char)
  | y1 :: y2 :: y3 :: y4 :: '-' :: m1 :: m2 :: '-' :: d1 :: d2 :: rest => do
      let y ← parse4 y1 y2 y3 y4
      let m ← parse2 m1 m2
      let d ← parse2 d1 d2
      if 1 ≤ m ∧ m ≤ 12 ∧ 1 ≤ d ∧ d ≤ 31 then pure (y, m, d, rest) else none
  | _ => none

def parseTimePart : List Char → Option Nat
  | [] => some 0
  | sep :: h1 :: h2 :: ':' :: n1 :: n2 :: ':' :: s1 :: s2 :: rest =>
      if (sep = 'T' ∨ sep = ' ') ∧ rest = [] then do
        let hh ← parse2 h1 h2
        let mm ← parse2 n1 n2
        let ss ← parse2 s1 s2
        if hh ≤ 23 ∧ mm ≤ 59 ∧ ss ≤ 59 then pure (hh * 3600 + mm * 60 + ss) else none
      else none
  | _ => none

def fromisoformat (s : String) : Option (Nat × Nat × Nat × Nat) := do
  let (y, m, d, rest) ← parseDatePart s.toList
  let secs ← parseTimePart rest
  pure (y, m, d, secs)

def pad2 (n : Nat) : String :=
  if n < 10 then ("0") ++ toString n else toString n

def pad4 (n : Nat) : String :=
  if n < 10 then ("000") ++ toString n
  else if n < 100 then ("00") ++ toString n
  else if n < 1000 then ("0") ++ toString n
  else toString n

/-- Python `str(datetime.fromisoformat(ts).date())`: the `YYYY-MM-DD` part. -/
def dateString (y m d : Nat) : String :=
  pad4 y ++ ("-") ++ pad2 m ++ ("-") ++ pad2 d

def isoDateOf (ts : String) : Option String := do
  let (y, m, d, _) ← fromisoformat ts
  pure (dateString y m d)

/-- Injective monotone second-encoding of a parsed instant (a model stand-in
for an epoch timestamp; minute truncation below never crosses the day term). -/
def encodeTs (y m d secs : Nat) : Nat :=
  ((y * 13 + m) * 32 + d) * 86400 + secs

def parseTs (ts : String) : Option Nat := do
  let (y, m, d, secs) ← fromisoformat ts
  pure (encodeTs y m d secs)

/-! ### Constants (module-level literals of `ingestion.py`) -/

def RAW_DATA_PATH : String := "/data/raw"

/-- `batch_size = 10` (line 153). -/
def batch_size : Nat := 10

/-- `commit_interval = 5` (line 155). -/
def commit_interval : Nat := 5

/-- `INTERVAL '5 minutes'` in the gold query (line 126). -/
def LOOKBACK : Nat := 300

/-! ### Raw capture (Bronze), `store_raw_data`, lines 61-75 -/

/-- `data['id'].replace(' ', '_')` (line 64). -/
def sanitize (s : String) : String :=
  String.mk (s.data.map (fun c => if c = ' ' then '_' else c))

/-- The f-string `f"{RAW_DATA_PATH}/{date}_{sensor_id}.jsonl"` (line 67). -/
def rawFilename (date sid : String) : String :=
  RAW_DATA_PATH ++ ("/") ++ date ++ ("_") ++ sid ++ (".jsonl")

/-- Lines 64-67 of `store_raw_data`: the partition file the reading goes to,
`none` when a `KeyError` (missing `id` or `dt`) or a `ValueError`
(unparseable `dt`) is raised inside the `try`. -/
def rawTarget (d : Data) : Option String := do
  let i ← d.id?
  let ts ← d.dt?
  let date ← isoDateOf ts
  pure (rawFilename date (sanitize i))

/-- Appending one line to a file (`open(filename, 'a')`, lines 69-70); the
filesystem is the assoc list `State.rawFiles`. -/
def appendLine : List (String × List Data) → String → Data → List (String × List Data)
  | [], name, d => [(name, [d])]
  | p :: rest, name, d =>
      if p.1 = name then (p.1, p.2 ++ [d]) :: rest
      else p :: appendLine rest name d

/-- Reading the last line of a file back. -/
def lastLine? : List (String × List Data) → String → Option Data
  | [], _ => none
  | p :: rest, name => if p.1 = name then p.2.getLast? else lastLine? rest name

/-- `store_raw_data` (lines 61-75): computes the partition file and appends
the serialized reading; every exception is caught and reported as `False`. -/
def store_raw_data (s : State) (d : Data) : State × Bool :=
  match rawTarget d with
  | some name => ({ s with rawFiles := appendLine s.rawFiles name d }, true)
  | none => (s, false)

/-! ### Validated store (Silver), `store_to_silver`, lines 77-93 -/

/-- The parameter tuple `(data['dt'], data['id'], data['value'])` of the
insert (line 86) as a store row; `none` when a key is missing (`KeyError`)
or the store rejects the timestamp string.  A genuine connection-text error
would additionally trigger `connect_database()` (line 92); the modelled
failure causes (missing key, bad timestamp) never carry that text. -/
def silverRow (d : Data) : Option Row := do
  let ts ← d.dt?
  let i ← d.id?
  let v ← d.value?
  let t ← parseTs ts
  pure { time := t, sensorId := i, value := v }

/-- `store_to_silver` (lines 77-93): `False` when `db_conn is None`
(line 82) or the insert raises; on success the row joins the open
transaction (`execute` without commit). -/
def store_to_silver (s : State) (d : Data) : State × Bool :=
  if s.dbConnected = false then (s, false)
  else
    match silverRow d with
    | some row => ({ s with pendingTxn := s.pendingTxn ++ [row] }, true)
    | none => (s, false)

/-! ### Gold aggregation query (lines 109-136) -/

/-- `time_bucket('1 minute', time)`: truncation to the minute. -/
def timeBucket (t : Nat) : Nat := t / 60 * 60

/-- `WHERE time >= NOW() - INTERVAL '5 minutes'` (`now ≤ t + 300` is the
subtraction-free form of `t ≥ now - 300`). -/
def windowRows (now : Nat) (rows : List Row) : List Row :=
  rows.filter (fun r => decide (now ≤ r.time + LOOKBACK))

/-- `GROUP BY bucket, sensor_id`: the distinct group keys. -/
def groupKeys (rows : List Row) : List (Nat × String) :=
  (rows.map (fun r => (timeBucket r.time, r.sensorId))).dedup

/-- The rows of one group. -/
def bucketRows (rows : List Row) (k : Nat × String) : List Row :=
  rows.filter (fun r => decide (timeBucket r.time = k.1) && decide (r.sensorId = k.2))

def rowsSum (l : List Row) : Int :=
  l.foldl (fun a r => a + r.value) 0

/-- `MIN(value)` over a (nonempty) group. -/
def rowsMin : List Row → Int
  | [] => 0
  | r :: rest => rest.foldl (fun a x => min a x.value) r.value

/-- `MAX(value)` over a (nonempty) group. -/
def rowsMax : List Row → Int
  | [] => 0
  | r :: rest => rest.foldl (fun a x => max a x.value) r.value

/-- `ROUND(AVG(value), 2)` (SQL rounds ties away from zero; the model rounds
half up — no theorem below depends on the tie direction). -/
def round2 (q : ℚ) : ℚ :=
  ((⌊q * 100 + 1 / 2⌋ : Int) : ℚ) / 100

/-- `CASE WHEN COUNT(*) >= 58 THEN 'Good' WHEN COUNT(*) >= 50 THEN 'Fair'
ELSE 'Poor' END` (lines 119-123). -/
def data_quality (c : Nat) : String :=
  if 58 ≤ c then ("Good") else if 50 ≤ c then ("Fair") else ("Poor")

/-- The SELECT list of the gold query for one group key. -/
def mkGoldRow (now : Nat) (rows : List Row) (k : Nat × String) : GoldRow :=
  { bucket := k.1
    sensorId := k.2
    valMean := round2 ((rowsSum (bucketRows rows k) : ℚ) / ((bucketRows rows k).length : ℚ))
    valMin := rowsMin (bucketRows rows k)
    valMax := rowsMax (bucketRows rows k)
    sampleCount := (bucketRows rows k).length
    dataQuality := data_quality (bucketRows rows k).length
    lastUpdated := now }

/-- The full SELECT of the gold refresh over the rows visible to the cursor. -/
def goldRowsComputed (now : Nat) (rows : List Row) : List GoldRow :=
  (groupKeys (windowRows now rows)).map (mkGoldRow now (windowRows now rows))

/-- The `ON CONFLICT (bucket, sensor_id)` match predicate. -/
def keyMatch (g r : GoldRow) : Bool :=
  decide (r.bucket = g.bucket) && decide (r.sensorId = g.sensorId)

/-- `INSERT ... ON CONFLICT DO UPDATE` for a single selected row: update the
existing bucket row or append a new one. -/
def upsertOne (t : List GoldRow) (g : GoldRow) : List GoldRow :=
  if t.any (keyMatch g) then t.map (fun r => if keyMatch g r then g else r)
  else t ++ [g]

/-- The whole upsert statement. -/
def upsertGold (t : List GoldRow) (news : List GoldRow) : List GoldRow :=
  news.foldl upsertOne t

/-- `refresh_gold_layer` (lines 95-149): `False` without side effects when
`db_conn is None`; otherwise the upsert plus `commit()` — which also commits
any pending silver inserts sharing the transaction — or, on any failure,
`rollback()`, which discards those pending inserts.  Returns a Boolean. -/
def refresh_gold_layer (dbOk : Bool) (now : Nat) (s : State) : State × Bool :=
  if s.dbConnected = false then (s, false)
  else if dbOk then
    ({ s with
        gold := upsertGold s.gold (goldRowsComputed now (s.committedSilver ++ s.pendingTxn))
        committedSilver := s.committedSilver ++ s.pendingTxn
        pendingTxn := [] }, true)
  else ({ s with pendingTxn := [] }, false)

/-! ### Commit scheduling, `flush_batch`, lines 157-170 -/

/-- `flush_batch`: a no-op unless `db_conn and batch_buffer`; then `commit()`
(also committing the open transaction's rows), clear the buffer and reset
`last_commit_time` — or, when the commit raises, `rollback()` with the
buffer and clock untouched. -/
def flush_batch (commitOk : Bool) (now : Nat) (s : State) : State :=
  if s.dbConnected && !s.batchBuffer.isEmpty then
    if commitOk then
      { s with
          committedSilver := s.committedSilver ++ s.pendingTxn
          pendingTxn := []
          batchBuffer := []
          lastCommitTime := now }
    else { s with pendingTxn := [] }
  else s

/-! ### Connection management, `connect_database`, lines 24-59 -/

/-- The retry loop body: `attempts` lists the outcome `psycopg2.connect`
would have on each successive try. -/
def connectAttempts (s : State) : List Bool → State × Bool
  | [] => (s, false)
  | ok :: rest =>
      if ok then ({ s with dbConnected := true }, true)
      else connectAttempts s rest

/-- `connect_database` with `max_retries = 5`: `True` as soon as one attempt
succeeds, `False` after five failures (the fixed `retry_delay` sleeps carry
no state). -/
def connect_database (attempts : List Bool) (s : State) : State × Bool :=
  connectAttempts s (attempts.take 5)

/-! ### The ingestion loop, `on_message`, lines 181-213 -/

/-- `on_message`: parse, bronze, silver, buffer append on silver success,
status line (which raises `KeyError` on a missing field, caught by the outer
handler, skipping the commit and refresh checks), the commit check
(line 203), and the 60-second gold refresh check (lines 207-210) —
`last_gold_refresh` is reset after every attempt, successful or not.
The outer `except` means the function is total: no exception reaches the
MQTT client. -/
def on_message (now : Nat) (commitOk dbOk : Bool) (p : Payload) (s : State) :
    State × MsgOutcome :=
  match p with
  | Payload.malformed =>
      (s, { rawOk := false, silverOk := false, printed := false,
            flushAttempted := false, refreshAttempted := false,
            refreshOk := false, caught := true })
  | Payload.parsed d =>
      let r1 := store_raw_data s d
      let r2 := store_to_silver r1.1 d
      let s2 := if r2.2 then { r2.1 with batchBuffer := r2.1.batchBuffer ++ [d] } else r2.1
      if d.id?.isSome && d.dt?.isSome && d.value?.isSome then
        let doFlush := decide (batch_size ≤ s2.batchBuffer.length) ||
                       decide (commit_interval < now - s2.lastCommitTime)
        let s3 := if doFlush then flush_batch commitOk now s2 else s2
        if 60 ≤ now - s3.lastGoldRefresh then
          let r4 := refresh_gold_layer dbOk now s3
          ({ r4.1 with lastGoldRefresh := now },
           { rawOk := r1.2, silverOk := r2.2, printed := true,
             flushAttempted := doFlush, refreshAttempted := true,
             refreshOk := r4.2, caught := false })
        else
          (s3, { rawOk := r1.2, silverOk := r2.2, printed := true,
                 flushAttempted := doFlush, refreshAttempted := false,
                 refreshOk := false, caught := false })
      else
        (s2, { rawOk := r1.2, silverOk := r2.2, printed := false,
               flushAttempted := false, refreshAttempted := false,
               refreshOk := false, caught := true })

/-! ### Process startup, `main`, lines 215-248 -/

/-- What `main` does with the connection outcome. -/
structure MainRun where
  connectResult : Bool
  entersIngestLoop : Bool
deriving DecidableEq, Repr

/-- The module-level initial state (`db_conn = None`, empty buffer, clocks
set at import time `t0`). -/
def initState (t0 : Nat) : State :=
  { rawFiles := []
    dbConnected := false
    committedSilver := []
    pendingTxn := []
    gold := []
    batchBuffer := []
    lastCommitTime := t0
    lastGoldRefresh := t0 }

/-- `main` (lines 215-248): `setup_storage`, then `connect_database` — whose
return value is discarded — then unconditionally the MQTT client setup and
`loop_forever()`.  There is no branch on the connection outcome. -/
def main (attempts : List Bool) (s : State) : State × MainRun :=
  let r := connect_database attempts s
  (r.1, { connectResult := r.2, entersIngestLoop := true })

/-! ## Helper lemmas -/

lemma store_raw_data_state (s : State) (d : Data) :
    ∃ rf, (store_raw_data s d).1 = { s with rawFiles := rf } := by
  unfold store_raw_data
  cases rawTarget d with
  | none => exact ⟨s.rawFiles, rfl⟩
  | some name => exact ⟨appendLine s.rawFiles name d, rfl⟩

lemma store_to_silver_state (s : State) (d : Data) :
    ∃ pt, (store_to_silver s d).1 = { s with pendingTxn := pt } := by
  unfold store_to_silver
  by_cases h : s.dbConnected = false
  · rw [if_pos h]; exact ⟨s.pendingTxn, rfl⟩
  · rw [if_neg h]
    cases silverRow d with
    | none => exact ⟨s.pendingTxn, rfl⟩
    | some row => exact ⟨s.pendingTxn ++ [row], rfl⟩

lemma silverRow_none_of_value (d : Data) (hv : d.value? = none) : silverRow d = none := by
  cases hdt : d.dt? <;> cases hid : d.id? <;> simp [silverRow, hv, hdt, hid]

lemma store_to_silver_fail (s : State) (d : Data) (h : silverRow d = none) :
    store_to_silver s d = (s, false) := by
  unfold store_to_silver
  by_cases hc : s.dbConnected = false
  · rw [if_pos hc]
  · rw [if_neg hc, h]

lemma flush_batch_lastGoldRefresh (commitOk : Bool) (now : Nat) (s : State) :
    (flush_batch commitOk now s).lastGoldRefresh = s.lastGoldRefresh := by
  unfold flush_batch
  split
  · split <;> rfl
  · rfl

lemma connectAttempts_all_false (s : State) :
    ∀ l : List Bool, l.any (fun b => b) = false → connectAttempts s l = (s, false) := by
  intro l
  induction l with
  | nil => intro _; rfl
  | cons a rest ih =>
    intro h
    rw [List.any_cons, Bool.or_eq_false_iff] at h
    unfold connectAttempts
    rw [if_neg (by simp [h.1]), ih h.2]

/-! ## C2 — refresh return value -/

/-- C2 counterexample: the claim says the refresh returns the count of
buckets upserted.  At `now = 400`, a one-row silver store yields one upserted
bucket and a two-row store yields two, yet `refresh_gold_layer` returns the
same Boolean `true` in both runs — the return value is a success flag and
carries no count. -/
theorem c2_counterexample :
    (refresh_gold_layer true 400
      { initState 0 with dbConnected := true,
                         committedSilver := [Row.mk 350 ("s1") 5] }).2 = true ∧
    (refresh_gold_layer true 400
      { initState 0 with dbConnected := true,
                         committedSilver := [Row.mk 350 ("s1") 5, Row.mk 130 ("s1") 7] }).2 = true ∧
    (goldRowsComputed 400 ([Row.mk 350 ("s1") 5] ++ [])).length = 1 ∧
    (goldRowsComputed 400 ([Row.mk 350 ("s1") 5, Row.mk 130 ("s1") 7] ++ [])).length = 2 := by
  decide

/-- C2 amended: `refresh_gold_layer` returns a Boolean success flag — `true`
exactly when a live connection exists and the pass completes without error,
`false` otherwise; the upserted-bucket count is only printed. -/
theorem c2_amended (dbOk : Bool) (now : Nat) (s : State) :
    (refresh_gold_layer dbOk now s).2 = (s.dbConnected && dbOk) := by
  cases h : s.dbConnected <;> cases dbOk <;> simp [refresh_gold_layer, h]

/-! ## C3 — startup connection exhaustion -/

/-- C3 counterexample: with all five connection attempts failing, the claim
says the process terminates before the ingestion loop; in the code `main`
discards the `connect_database` result and unconditionally proceeds to the
MQTT loop with no live connection. -/
theorem c3_counterexample :
    (main (List.replicate 5 false) (initState 0)).2.connectResult = false ∧
    (main (List.replicate 5 false) (initState 0)).2.entersIngestLoop = true ∧
    ((main (List.replicate 5 false) (initState 0)).1).dbConnected = false := by
  decide

/-- C3 amended: when the five connection attempts are exhausted,
`connect_database` returns `False`, and `main` — which ignores that return
value — still enters the ingestion loop with the state (in particular the
absent connection) unchanged; the process does not terminate. -/
theorem c3_amended (attempts : List Bool) (s : State)
    (h : (attempts.take 5).any (fun b => b) = false) :
    (connect_database attempts s).2 = false ∧
    (main attempts s).2.entersIngestLoop = true ∧
    (main attempts s).1 = s := by
  have hca := connectAttempts_all_false s (attempts.take 5) h
  unfold main connect_database
  rw [hca]
  exact ⟨rfl, rfl, rfl⟩

/-- Witness for C3 amended at five failing attempts. -/
theorem c3_amended_witness :
    ((List.replicate 5 false).take 5).any (fun b => b) = false ∧
    (main (List.replicate 5 false) (initState 3)).2.entersIngestLoop = true ∧
    (main (List.replicate 5 false) (initState 3)).1 = initState 3 :=
  ⟨by decide, (c3_amended (List.replicate 5 false) (initState 3) (by decide)).2.1,
    (c3_amended (List.replicate 5 false) (initState 3) (by decide)).2.2⟩

/-! ## C8 — flush effects -/

/-- C8: for a flush with a live connection and a non-empty pending batch, a
successful commit merges the open transaction into the committed store,
clears the batch tally and resets the commit clock; a failed commit rolls
the transaction back and leaves the tally and the clock untouched. -/
theorem c8_flush_effects (commitOk : Bool) (now : Nat) (s : State)
    (hc : s.dbConnected = true) (hb : s.batchBuffer ≠ []) :
    (commitOk = true →
      (flush_batch commitOk now s).committedSilver = s.committedSilver ++ s.pendingTxn ∧
      (flush_batch commitOk now s).pendingTxn = [] ∧
      (flush_batch commitOk now s).batchBuffer = [] ∧
      (flush_batch commitOk now s).lastCommitTime = now) ∧
    (commitOk = false →
      (flush_batch commitOk now s).pendingTxn = [] ∧
      (flush_batch commitOk now s).batchBuffer = s.batchBuffer ∧
      (flush_batch commitOk now s).lastCommitTime = s.lastCommitTime ∧
      (flush_batch commitOk now s).committedSilver = s.committedSilver) := by
  cases hbb : s.batchBuffer with
  | nil => exact absurd hbb hb
  | cons a l =>
    cases commitOk <;> simp [flush_batch, hc, hbb]

/-- Witness for C8 at a concrete connected state with one buffered reading. -/
theorem c8_flush_effects_witness :
    ({ initState 0 with dbConnected := true,
                        batchBuffer := [Data.mk (some ("s1")) none none] } : State).dbConnected
      = true ∧
    ({ initState 0 with dbConnected := true,
                        batchBuffer := [Data.mk (some ("s1")) none none] } : State).batchBuffer
      ≠ [] ∧
    (flush_batch true 7
      { initState 0 with dbConnected := true,
                         batchBuffer := [Data.mk (some ("s1")) none none] }).lastCommitTime = 7 :=
  ⟨rfl, by decide,
    ((c8_flush_effects true 7
      { initState 0 with dbConnected := true,
                         batchBuffer := [Data.mk (some ("s1")) none none] }
      rfl (by decide)).1 rfl).2.2.2⟩

/-! ## C10 — refresh shares the open transaction -/

/-- C10: with a live connection, a refresh pass empties the open transaction
either way — committing the pending silver inserts on success, rolling them
back on failure — while the batch tally and the commit clock are untouched;
after a failed refresh the rows still counted in the tally are gone from the
open transaction. -/
theorem c10_refresh_transaction (dbOk : Bool) (now : Nat) (s : State)
    (h : s.dbConnected = true) :
    ((refresh_gold_layer dbOk now s).1).pendingTxn = [] ∧
    ((refresh_gold_layer dbOk now s).1).batchBuffer = s.batchBuffer ∧
    ((refresh_gold_layer dbOk now s).1).lastCommitTime = s.lastCommitTime ∧
    ((refresh_gold_layer dbOk now s).2 = true →
      ((refresh_gold_layer dbOk now s).1).committedSilver = s.committedSilver ++ s.pendingTxn) ∧
    ((refresh_gold_layer dbOk now s).2 = false →
      ((refresh_gold_layer dbOk now s).1).committedSilver = s.committedSilver) := by
  cases dbOk <;> simp [refresh_gold_layer, h]

/-- Witness for C10 at a concrete connected state with one pending insert. -/
theorem c10_refresh_transaction_witness :
    ({ initState 0 with dbConnected := true,
                        pendingTxn := [Row.mk 10 ("s1") 3] } : State).dbConnected = true ∧
    ((refresh_gold_layer false 400
      { initState 0 with dbConnected := true,
                         pendingTxn := [Row.mk 10 ("s1") 3] }).1).pendingTxn = [] :=
  ⟨rfl,
    (c10_refresh_transaction false 400
      { initState 0 with dbConnected := true, pendingTxn := [Row.mk 10 ("s1") 3] } rfl).1⟩

/-! ## C6 — quality label -/

/-- Ordering of the three labels, `Poor < Fair < Good`. -/
def qualityRank (q : String) : Nat :=
  if q = ("Good") then 2 else if q = ("Fair") then 1 else 0

/-- C6: the derived label is `Good` at sample count at least 58, `Fair` at
least 50 and below 58, else `Poor`; the label is monotone in the count, and
the aggregation assigns each bucket group exactly this label of its row
count. -/
theorem c6_quality_label (now : Nat) (w : List Row) (k : Nat × String) (c c2 : Nat)
    (h : c ≤ c2) :
    (58 ≤ c → data_quality c = ("Good")) ∧
    (50 ≤ c ∧ c < 58 → data_quality c = ("Fair")) ∧
    (c < 50 → data_quality c = ("Poor")) ∧
    qualityRank (data_quality c) ≤ qualityRank (data_quality c2) ∧
    (mkGoldRow now w k).dataQuality = data_quality (bucketRows w k).length := by
  refine ⟨?_, ?_, ?_, ?_, rfl⟩
  · intro h58; unfold data_quality; rw [if_pos h58]
  · intro ⟨h50, h58⟩; unfold data_quality
    rw [if_neg (by omega), if_pos h50]
  · intro h50; unfold data_quality
    rw [if_neg (by omega), if_neg (by omega)]
  · unfold data_quality qualityRank
    by_cases h58 : 58 ≤ c <;> by_cases h50 : 50 ≤ c <;>
      by_cases h58b : 58 ≤ c2 <;> by_cases h50b : 50 ≤ c2 <;>
      simp only [if_pos, if_neg, *] <;> first | omega | simp

/-- Witness for C6 at counts 58 and 60. -/
theorem c6_quality_label_witness :
    (58 : Nat) ≤ 60 ∧ data_quality 58 = ("Good") :=
  ⟨by decide, (c6_quality_label 0 [] (0, ("x")) 58 60 (by decide)).1 (by decide)⟩

/-! ## C5 — idempotent re-aggregation -/

/-- The conflict key of a gold row. -/
def keyOf (g : GoldRow) : Nat × String := (g.bucket, g.sensorId)

lemma keyMatch_iff {g r : GoldRow} : keyMatch g r = true ↔ keyOf r = keyOf g := by
  simp [keyMatch, keyOf, Prod.ext_iff]

lemma keyMatch_self (g : GoldRow) : keyMatch g g = true := by
  simp [keyMatch]

/-- The table already holds `g`: some row carries its key, and every row
carrying its key is `g` itself. -/
def Settled (t : List GoldRow) (g : GoldRow) : Prop :=
  (∃ r ∈ t, keyMatch g r = true) ∧ ∀ r ∈ t, keyMatch g r = true → r = g

lemma upsertOne_of_settled {t : List GoldRow} {g : GoldRow} (h : Settled t g) :
    upsertOne t g = t := by
  obtain ⟨⟨r0, hr0, hm0⟩, hall⟩ := h
  have hany : t.any (keyMatch g) = true := List.any_eq_true.mpr ⟨r0, hr0, hm0⟩
  unfold upsertOne
  rw [if_pos hany]
  have hcongr : ∀ r ∈ t, (if keyMatch g r then g else r) = id r := by
    intro r hr
    by_cases hm : keyMatch g r = true
    · rw [if_pos hm]; exact (hall r hr hm).symm
    · rw [if_neg hm]; rfl
  rw [List.map_congr_left hcongr, List.map_id]

lemma settled_upsertOne_self (t : List GoldRow) (g : GoldRow) :
    Settled (upsertOne t g) g := by
  unfold upsertOne
  by_cases hany : t.any (keyMatch g) = true
  · rw [if_pos hany]
    obtain ⟨r0, hr0, hm0⟩ := List.any_eq_true.mp hany
    constructor
    · refine ⟨g, List.mem_map.mpr ⟨r0, hr0, ?_⟩, keyMatch_self g⟩
      rw [if_pos hm0]
    · intro r hr hm
      obtain ⟨a, ha, hfa⟩ := List.mem_map.mp hr
      by_cases hka : keyMatch g a = true
      · rw [if_pos hka] at hfa; exact hfa.symm
      · rw [if_neg hka] at hfa; subst hfa; exact absurd hm hka
  · rw [if_neg hany]
    constructor
    · exact ⟨g, List.mem_append_right _ (List.mem_singleton_self g), keyMatch_self g⟩
    · intro r hr hm
      rcases List.mem_append.mp hr with h1 | h2
      · exact absurd (List.any_eq_true.mpr ⟨r, h1, hm⟩) hany
      · exact List.mem_singleton.mp h2

lemma settled_upsertOne_other {t : List GoldRow} {g : GoldRow} (g2 : GoldRow)
    (hne : keyOf g2 ≠ keyOf g) (h : Settled t g) : Settled (upsertOne t g2) g := by
  obtain ⟨⟨r0, hr0, hm0⟩, hall⟩ := h
  have hg2 : keyMatch g g2 ≠ true := fun hk => hne (keyMatch_iff.mp hk)
  unfold upsertOne
  by_cases hany : t.any (keyMatch g2) = true
  · rw [if_pos hany]
    have hk0 : keyMatch g2 r0 ≠ true := by
      intro hk
      exact hne ((keyMatch_iff.mp hk).symm.trans (keyMatch_iff.mp hm0))
    constructor
    · refine ⟨r0, List.mem_map.mpr ⟨r0, hr0, ?_⟩, hm0⟩
      rw [if_neg hk0]
    · intro r hr hm
      obtain ⟨a, ha, hfa⟩ := List.mem_map.mp hr
      by_cases hka : keyMatch g2 a = true
      · rw [if_pos hka] at hfa; subst hfa; exact absurd hm hg2
      · rw [if_neg hka] at hfa; subst hfa; exact hall a ha hm
  · rw [if_neg hany]
    constructor
    · exact ⟨r0, List.mem_append_left _ hr0, hm0⟩
    · intro r hr hm
      rcases List.mem_append.mp hr with h1 | h2
      · exact hall r h1 hm
      · rw [List.mem_singleton.mp h2] at hm; exact absurd hm hg2

lemma settled_upsertGold_other {g : GoldRow} :
    ∀ (gs : List GoldRow) (t : List GoldRow), (∀ g2 ∈ gs, keyOf g2 ≠ keyOf g) →
      Settled t g → Settled (upsertGold t gs) g := by
  intro gs
  induction gs with
  | nil => intro t _ h; exact h
  | cons g2 rest ih =>
    intro t hks h
    have step : upsertGold t (g2 :: rest) = upsertGold (upsertOne t g2) rest := rfl
    rw [step]
    exact ih (upsertOne t g2) (fun a ha => hks a (List.mem_cons_of_mem _ ha))
      (settled_upsertOne_other g2 (hks g2 (List.mem_cons_self _ _)) h)

lemma settled_all :
    ∀ (gs : List GoldRow) (t : List GoldRow), (gs.map keyOf).Nodup →
      ∀ g ∈ gs, Settled (upsertGold t gs) g := by
  intro gs
  induction gs with
  | nil => intro t _ g hg; exact absurd hg (List.not_mem_nil g)
  | cons g0 rest ih =>
    intro t hnd g hg
    rw [List.map_cons, List.nodup_cons] at hnd
    have step : upsertGold t (g0 :: rest) = upsertGold (upsertOne t g0) rest := rfl
    rw [step]
    rcases List.mem_cons.mp hg with rfl | hg2
    · refine settled_upsertGold_other rest (upsertOne t g) ?_ (settled_upsertOne_self t g)
      intro g2 hg2 heq
      exact hnd.1 (heq ▸ List.mem_map_of_mem keyOf hg2)
    · exact ih (upsertOne t g0) hnd.2 g hg2

lemma upsertGold_settled_id :
    ∀ (gs : List GoldRow) (t : List GoldRow), (∀ g ∈ gs, Settled t g) →
      upsertGold t gs = t := by
  intro gs
  induction gs with
  | nil => intro t _; rfl
  | cons g0 rest ih =>
    intro t h
    have step : upsertGold t (g0 :: rest) = upsertGold (upsertOne t g0) rest := rfl
    rw [step, upsertOne_of_settled (h g0 (List.mem_cons_self _ _))]
    exact ih t (fun g hg => h g (List.mem_cons_of_mem _ hg))

lemma upsertGold_idem (t gs : List GoldRow) (hnd : (gs.map keyOf).Nodup) :
    upsertGold (upsertGold t gs) gs = upsertGold t gs :=
  upsertGold_settled_id gs (upsertGold t gs) (settled_all gs t hnd)

lemma goldRows_keys_nodup (now : Nat) (rows : List Row) :
    ((goldRowsComputed now rows).map keyOf).Nodup := by
  unfold goldRowsComputed
  rw [List.map_map]
  have hid : ((groupKeys (windowRows now rows)).map
      (keyOf ∘ mkGoldRow now (windowRows now rows)))
      = groupKeys (windowRows now rows) := by
    have : ∀ k ∈ groupKeys (windowRows now rows),
        (keyOf ∘ mkGoldRow now (windowRows now rows)) k = id k := by
      intro k _
      rfl
    rw [List.map_congr_left this, List.map_id]
  rw [hid]
  unfold groupKeys
  exact List.nodup_dedup _

/-- C5: with no rows added between the two passes, re-running the refresh at
the same instant leaves the Aggregate Bucket table — every column included —
exactly as the first pass left it.  (The first pass commits the open
transaction, so the rows visible to the second pass are unchanged; the
upsert of identical per-key rows is the identity.) -/
theorem c5_refresh_idempotent (now : Nat) (s : State) :
    ((refresh_gold_layer true now (refresh_gold_layer true now s).1).1).gold
      = ((refresh_gold_layer true now s).1).gold := by
  cases hb : s.dbConnected with
  | false => simp [refresh_gold_layer, hb]
  | true =>
    have hnd := goldRows_keys_nodup now (s.committedSilver ++ s.pendingTxn)
    simp [refresh_gold_layer, hb, upsertGold_idem _ _ hnd]

/-! ## C9 — raw capture round-trip -/

lemma lastLine_appendLine (files : List (String × List Data)) (name : String) (d : Data) :
    lastLine? (appendLine files name d) name = some d := by
  induction files with
  | nil => simp [appendLine, lastLine?]
  | cons p rest ih =>
    by_cases h : p.1 = name
    · simp only [appendLine, if_pos h, lastLine?, List.getLast?_concat]
    · simp only [appendLine, if_neg h, lastLine?, ih]

/-- C9: for a valid reading (present `id` and `value`, parseable `dt`),
`store_raw_data` reports success and the last line of the partition file for
`(date-of(dt), sanitized(id))` is a record carrying the same
`(source_id, timestamp, value)` triple. -/
theorem c9_raw_roundtrip (s : State) (d : Data) (i ts : String) (v : Int) (date : String)
    (h1 : d.id? = some i) (h2 : d.dt? = some ts) (h3 : d.value? = some v)
    (h4 : isoDateOf ts = some date) :
    (store_raw_data s d).2 = true ∧
    ∃ rec : Data,
      lastLine? ((store_raw_data s d).1).rawFiles (rawFilename date (sanitize i)) = some rec ∧
      rec.id? = some i ∧ rec.dt? = some ts ∧ rec.value? = some v := by
  have ht : rawTarget d = some (rawFilename date (sanitize i)) := by
    simp [rawTarget, h1, h2, h4]
  unfold store_raw_data
  rw [ht]
  exact ⟨rfl, d, lastLine_appendLine s.rawFiles _ d, h1, h2, h3⟩

/-- Witness for C9 at a concrete valid reading. -/
theorem c9_raw_roundtrip_witness :
    isoDateOf ("2024-01-01T00:00:10") = some ("2024-01-01") ∧
    (store_raw_data (initState 0)
      (Data.mk (some ("s1")) (some ("2024-01-01T00:00:10")) (some 5))).2 = true :=
  ⟨by decide,
    (c9_raw_roundtrip (initState 0)
      (Data.mk (some ("s1")) (some ("2024-01-01T00:00:10")) (some 5))
      ("s1") ("2024-01-01T00:00:10") 5 ("2024-01-01") rfl rfl rfl (by decide)).1⟩

/-! ## C1 — malformed payloads -/

/-- C1 counterexample: the claim says a payload missing `value` causes no raw
partition-file write.  Processing `{"id": "s1", "dt": "2024-01-01T00:00:10"}`
(no `value`) from the empty initial state does write the raw partition file:
`store_raw_data` needs only `id` and `dt`. -/
theorem c1_counterexample :
    (initState 0).rawFiles = [] ∧
    ((on_message 0 true true
        (Payload.parsed (Data.mk (some ("s1")) (some ("2024-01-01T00:00:10")) none))
        (initState 0)).1).rawFiles
      = [(("/data/raw/2024-01-01_s1.jsonl"),
          [Data.mk (some ("s1")) (some ("2024-01-01T00:00:10")) none])] := by
  decide

/-- C1 amended: a structurally unparseable payload is dropped with no effect
on any tier and no exception to the transport; a parsed payload missing
`value` likewise produces no validated-store insert, no batch-tally change,
no commit and no refresh, and no exception to the transport — but the
raw-capture write is still attempted (and succeeds when `id` is present and
`dt` parses), since the Bronze tier does not require `value`. -/
theorem c1_amended (now : Nat) (cOk dOk : Bool) (s : State) (d : Data)
    (hv : d.value? = none) :
    on_message now cOk dOk Payload.malformed s =
      (s, { rawOk := false, silverOk := false, printed := false, flushAttempted := false,
            refreshAttempted := false, refreshOk := false, caught := true }) ∧
    ((on_message now cOk dOk (Payload.parsed d) s).1).pendingTxn = s.pendingTxn ∧
    ((on_message now cOk dOk (Payload.parsed d) s).1).committedSilver = s.committedSilver ∧
    ((on_message now cOk dOk (Payload.parsed d) s).1).batchBuffer = s.batchBuffer ∧
    ((on_message now cOk dOk (Payload.parsed d) s).1).gold = s.gold ∧
    ((on_message now cOk dOk (Payload.parsed d) s).1).lastCommitTime = s.lastCommitTime ∧
    ((on_message now cOk dOk (Payload.parsed d) s).1).lastGoldRefresh = s.lastGoldRefresh ∧
    ((on_message now cOk dOk (Payload.parsed d) s).2).silverOk = false ∧
    ((on_message now cOk dOk (Payload.parsed d) s).2).flushAttempted = false ∧
    ((on_message now cOk dOk (Payload.parsed d) s).2).refreshAttempted = false ∧
    ((on_message now cOk dOk (Payload.parsed d) s).2).caught = true := by
  obtain ⟨rf, hrf⟩ := store_raw_data_state s d
  have hsil : store_to_silver (store_raw_data s d).1 d = ((store_raw_data s d).1, false) :=
    store_to_silver_fail _ d (silverRow_none_of_value d hv)
  refine ⟨rfl, ?_⟩
  simp only [on_message, hsil]
  simp [hv, hrf]

/-- Witness for C1 amended at a concrete payload missing `value`. -/
theorem c1_amended_witness :
    (Data.mk (some ("s1")) (some ("2024-01-01T00:00:10")) (none : Option Int)).value? = none ∧
    ((on_message 0 true true
        (Payload.parsed (Data.mk (some ("s1")) (some ("2024-01-01T00:00:10")) none))
        (initState 0)).2).caught = true :=
  ⟨rfl,
    (c1_amended 0 true true (initState 0)
      (Data.mk (some ("s1")) (some ("2024-01-01T00:00:10")) none)
      rfl).2.2.2.2.2.2.2.2.2.2⟩

/-! ## C4 / C7 — the commit check and the refresh check in the loop -/

lemma on_message_valid_shape (now : Nat) (cOk dOk : Bool) (s : State) (d : Data)
    (hval : (d.id?.isSome && d.dt?.isSome && d.value?.isSome) = true)
    (b2 : Bool) (hb2 : (store_to_silver (store_raw_data s d).1 d).2 = b2) :
    ((on_message now cOk dOk (Payload.parsed d) s).2).silverOk = b2 ∧
    ((on_message now cOk dOk (Payload.parsed d) s).2).flushAttempted
      = (decide (batch_size ≤ s.batchBuffer.length + (if b2 = true then 1 else 0)) ||
         decide (commit_interval < now - s.lastCommitTime)) ∧
    ((on_message now cOk dOk (Payload.parsed d) s).2).refreshAttempted
      = decide (60 ≤ now - s.lastGoldRefresh) ∧
    ((on_message now cOk dOk (Payload.parsed d) s).1).lastGoldRefresh
      = (if 60 ≤ now - s.lastGoldRefresh then now else s.lastGoldRefresh) := by
  obtain ⟨rf, hrf⟩ := store_raw_data_state s d
  simp only [on_message, hval, if_true]
  rw [hrf] at hb2 ⊢
  obtain ⟨pt, hpt⟩ := store_to_silver_state { s with rawFiles := rf } d
  rw [hpt, hb2]
  cases b2 with
  | false =>
      simp only [Bool.false_eq_true, if_false, Nat.add_zero]
      generalize (decide (batch_size ≤ s.batchBuffer.length) ||
        decide (commit_interval < now - s.lastCommitTime)) = df
      cases df <;>
        simp only [Bool.false_eq_true, if_false, if_true] <;>
        by_cases hg : 60 ≤ now - s.lastGoldRefresh <;>
        simp [hg, flush_batch_lastGoldRefresh]
  | true =>
      simp only [eq_self_iff_true, if_true, List.length_append, List.length_cons,
        List.length_nil, Nat.zero_add]
      generalize (decide (batch_size ≤ s.batchBuffer.length + 1) ||
        decide (commit_interval < now - s.lastCommitTime)) = df
      cases df <;>
        simp only [Bool.false_eq_true, if_false, if_true] <;>
        by_cases hg : 60 ≤ now - s.lastGoldRefresh <;>
        simp [hg, flush_batch_lastGoldRefresh]

/-- C4: after processing a well-formed reading, the flush is attempted
exactly when the pending count at the check (the buffer plus this reading if
its silver insert succeeded) has reached `batch_size`, or the time since the
last commit strictly exceeds `commit_interval`; in particular reaching the
size threshold alone suffices, and exceeding the time threshold alone
suffices whatever the buffer holds. -/
theorem c4_flush_policy (now : Nat) (cOk dOk : Bool) (s : State) (d : Data)
    (i ts : String) (v : Int)
    (h1 : d.id? = some i) (h2 : d.dt? = some ts) (h3 : d.value? = some v) :
    ((on_message now cOk dOk (Payload.parsed d) s).2).flushAttempted
      = (decide (batch_size ≤ s.batchBuffer.length +
          (if ((on_message now cOk dOk (Payload.parsed d) s).2).silverOk = true
           then 1 else 0)) ||
         decide (commit_interval < now - s.lastCommitTime)) ∧
    (batch_size ≤ s.batchBuffer.length →
      ((on_message now cOk dOk (Payload.parsed d) s).2).flushAttempted = true) ∧
    (commit_interval < now - s.lastCommitTime →
      ((on_message now cOk dOk (Payload.parsed d) s).2).flushAttempted = true) := by
  have hval : (d.id?.isSome && d.dt?.isSome && d.value?.isSome) = true := by
    rw [h1, h2, h3]; rfl
  obtain ⟨hs, hf, -, -⟩ := on_message_valid_shape now cOk dOk s d hval
    ((store_to_silver (store_raw_data s d).1 d).2) rfl
  refine ⟨?_, ?_, ?_⟩
  · rw [hf, hs]
  · intro hbs
    rw [hf]
    have hle : batch_size ≤ s.batchBuffer.length +
        (if (store_to_silver (store_raw_data s d).1 d).2 = true then 1 else 0) :=
      le_trans hbs (Nat.le_add_right _ _)
    simp [hle]
  · intro hci
    rw [hf]
    simp [hci]

/-- Witness for C4: a reading arriving 10 seconds after the last commit with
an empty buffer still triggers a flush attempt (time threshold alone). -/
theorem c4_flush_policy_witness :
    commit_interval < 10 - (initState 0).lastCommitTime ∧
    ((on_message 10 true true
        (Payload.parsed (Data.mk (some ("s1")) (some ("2024-01-01T00:00:10")) (some 5)))
        (initState 0)).2).flushAttempted = true :=
  ⟨by decide,
    (c4_flush_policy 10 true true (initState 0)
      (Data.mk (some ("s1")) (some ("2024-01-01T00:00:10")) (some 5))
      ("s1") ("2024-01-01T00:00:10") 5 rfl rfl rfl).2.2 (by decide)⟩

/-- C7 counterexample: the claim says the refresh gate measures elapsed time
from the last successful refresh.  From a connected state with
`last_gold_refresh = 0`, a reading at `t = 60` triggers a refresh attempt
that fails, yet `last_gold_refresh` is reset to 60; the next reading at
`t = 61` — 61 seconds after the last successful refresh (there has been
none) — triggers no retry, because the code measures from the failed
attempt. -/
theorem c7_counterexample :
    ((on_message 60 true false
        (Payload.parsed (Data.mk (some ("s1")) (some ("2024-01-01T00:00:10")) (some 5)))
        { initState 0 with dbConnected := true }).2).refreshAttempted = true ∧
    ((on_message 60 true false
        (Payload.parsed (Data.mk (some ("s1")) (some ("2024-01-01T00:00:10")) (some 5)))
        { initState 0 with dbConnected := true }).2).refreshOk = false ∧
    (((on_message 60 true false
        (Payload.parsed (Data.mk (some ("s1")) (some ("2024-01-01T00:00:10")) (some 5)))
        { initState 0 with dbConnected := true }).1).lastGoldRefresh = 60) ∧
    ((on_message 61 true false
        (Payload.parsed (Data.mk (some ("s1")) (some ("2024-01-01T00:00:10")) (some 5)))
        ((on_message 60 true false
          (Payload.parsed (Data.mk (some ("s1")) (some ("2024-01-01T00:00:10")) (some 5)))
          { initState 0 with dbConnected := true }).1)).2).refreshAttempted = false := by
  decide

/-- C7 amended: for a well-formed reading, the refresh branch fires exactly
when at least 60 seconds have elapsed since the last refresh ATTEMPT
(`last_gold_refresh`), and the attempt — successful or failed alike —
resets that clock to `now`, so a failed refresh is only retried a full
interval later, not on the next reading. -/
theorem c7_amended (now : Nat) (cOk dOk : Bool) (s : State) (d : Data)
    (i ts : String) (v : Int)
    (h1 : d.id? = some i) (h2 : d.dt? = some ts) (h3 : d.value? = some v) :
    ((on_message now cOk dOk (Payload.parsed d) s).2).refreshAttempted
      = decide (60 ≤ now - s.lastGoldRefresh) ∧
    (60 ≤ now - s.lastGoldRefresh →
      ((on_message now cOk dOk (Payload.parsed d) s).1).lastGoldRefresh = now) ∧
    (¬ 60 ≤ now - s.lastGoldRefresh →
      ((on_message now cOk dOk (Payload.parsed d) s).1).lastGoldRefresh
        = s.lastGoldRefresh) := by
  have hval : (d.id?.isSome && d.dt?.isSome && d.value?.isSome) = true := by
    rw [h1, h2, h3]; rfl
  obtain ⟨-, -, hr, hl⟩ := on_message_valid_shape now cOk dOk s d hval
    ((store_to_silver (store_raw_data s d).1 d).2) rfl
  refine ⟨hr, ?_, ?_⟩
  · intro hg; rw [hl, if_pos hg]
  · intro hg; rw [hl, if_neg hg]

/-- Witness for C7 amended: a reading 100 seconds after the clock start,
with the refresh failing, still resets the refresh clock to 100. -/
theorem c7_amended_witness :
    (60 : Nat) ≤ 100 - (initState 0).lastGoldRefresh ∧
    ((on_message 100 true false
        (Payload.parsed (Data.mk (some ("s1")) (some ("2024-01-01T00:00:10")) (some 5)))
        (initState 0)).1).lastGoldRefresh = 100 :=
  ⟨by decide,
    (c7_amended 100 true false (initState 0)
      (Data.mk (some ("s1")) (some ("2024-01-01T00:00:10")) (some 5))
      ("s1") ("2024-01-01T00:00:10") 5 rfl rfl rfl).2.1 (by decide)⟩

end Ingestion
